import Mathlib

/-!
Verification of the resilient data-adapter package (news sentiment pipeline,
price adapter with deterministic stub generation, SEC filings adapter, and the
shared health-check framework).  External HTTP calls are modelled as oracle
parameters of type `Except String α`: `Except.error e` is the live call raising
an exception named/described by `e`, `Except.ok v` is the parsed response.
Python string truthiness of credentials is modelled explicitly.
-/

namespace Base

/-- Python truthiness of an optional credential string: `None` and the empty
string are falsy (`if not self.api_key`). -/
def pyTruthy : Option String → Bool
  | none => false
  | some s => !s.isEmpty

/-- Python `\s` whitespace characters (ASCII range). -/
def isPyWs (c : Char) : Bool :=
  c = ' ' || c = '\t' || c = '\n' || c = '\r' || c = Char.ofNat 11 || c = Char.ofNat 12

/-- The three probe steps of the generic health check: credential presence,
connectivity (the only step performing network I/O), response shape. -/
inductive Step
  | credential
  | connection
  | responseShape
deriving DecidableEq, BEq

/-- Health fields set by a health check (`_health_check_passed`,
`_health_check_message`). -/
structure HealthState where
  health_check_passed : Bool
  health_check_message : String
deriving DecidableEq

/-- `APIDataAdapter._test_api_connection` as implemented identically by the
news and SEC adapters, parameterised by the success message.  `conn` models
the minimal request plus `raise_for_status` (error = exception type name);
`parse` models `isinstance(r.json().get(field, []), list)` (error = parsing
exception, `ok b` = whether the field is a list).  The returned list records
which probe steps executed. -/
def test_api_connection (opMessage : String) (conn : Except String Unit)
    (parse : Except String Bool) : HealthState × List Step :=
  match conn with
  | Except.error e => (⟨false, "API connection failed: " ++ e⟩, [Step.connection])
  | Except.ok _ =>
    match parse with
    | Except.error e =>
      (⟨false, "Response parsing failed: " ++ e⟩, [Step.connection, Step.responseShape])
    | Except.ok true => (⟨true, opMessage⟩, [Step.connection, Step.responseShape])
    | Except.ok false =>
      (⟨false, "Unexpected response format"⟩, [Step.connection, Step.responseShape])

/-- `APIDataAdapter._run_health_check`: step 1 checks the credential and fails
fast with a message naming the environment variable; only on success does it
delegate to the connection test. -/
def run_health_check (api_key_env_var : String) (opMessage : String)
    (api_key : Option String) (conn : Except String Unit)
    (parse : Except String Bool) : HealthState × List Step :=
  if pyTruthy api_key then
    let r := test_api_connection opMessage conn parse
    (r.1, Step.credential :: r.2)
  else
    (⟨false, "No " ++ api_key_env_var ++ " found in environment"⟩, [Step.credential])

end Base

namespace News

/-- Positive cue keywords (`NewsAdapter.POS`). -/
def POS : List String := ["beat", "raise", "growth", "record", "surge", "expand"]

/-- Negative cue keywords (`NewsAdapter.NEG`). -/
def NEG : List String := ["miss", "cut", "decline", "lawsuit", "drop", "recall", "probe"]

/-- Python substring membership `k in t`. -/
def strContains (t k : String) : Bool := decide (k.data <:+: t.data)

/-- `classify_text` inside `NewsAdapter._classify`. -/
def classify_text (t : String) : String :=
  let has_pos := POS.any (fun k => strContains t k)
  let has_neg := NEG.any (fun k => strContains t k)
  if has_pos && has_neg then "mixed"
  else if has_pos then "positive"
  else if has_neg then "negative"
  else "neutral"

/-- `NewsAdapter._classify`. -/
def classify (texts : List String) : List String := texts.map classify_text

/-- Summary object produced by `NewsAdapter._summarize`. -/
structure Summary where
  summary_text : String
  counts : List (String × Nat)
  snippets : List String
deriving DecidableEq

/-- `NewsAdapter._summarize`: per-label counts over the four fixed labels and
up to `k` labelled snippets. -/
def summarize (labels : List String) (texts : List String) (k : Nat) : Summary :=
  { summary_text := "..."
    counts := ["mixed", "positive", "negative", "neutral"].map (fun s => (s, labels.count s))
    snippets := (List.range (min k texts.length)).map
      (fun i => "- " ++ labels.getD i "" ++ ": " ++ (texts.getD i "").take 100 ++ "...") }

/-- An article record as consumed by the pipeline (`title`, `description`,
`content`, `publishedAt`), all strings. -/
structure Article where
  title : String
  description : String
  content : String
  publishedAt : String
deriving DecidableEq

/-- Replace each maximal whitespace run by a single space, as
`re.sub(r'\s+', ' ', s)` does; the flag records whether the previous
character belonged to a whitespace run. -/
def collapseWsAux : List Char → Bool → List Char
  | [], _ => []
  | c :: cs, prev =>
    if Base.isPyWs c then
      if prev then collapseWsAux cs true
      else ' ' :: collapseWsAux cs true
    else c :: collapseWsAux cs false

/-- The normalisation applied per article by `NewsAdapter._preprocess`:
collapse whitespace, strip, lowercase. -/
def py_normalize (s : String) : String :=
  let collapsed := collapseWsAux s.data false
  let stripped := ((collapsed.dropWhile Base.isPyWs).reverse.dropWhile Base.isPyWs).reverse
  String.mk (stripped.map Char.toLower)

/-- `NewsAdapter._preprocess`: join title, description and content with
spaces, then normalise. -/
def preprocess (items : List Article) : List String :=
  items.map (fun a => py_normalize (a.title ++ " " ++ a.description ++ " " ++ a.content))

/-- Consume a maximal run of decimal digits. -/
def takeDigits : List Char → List Char × List Char
  | [] => ([], [])
  | c :: cs =>
    if c.isDigit then
      let r := takeDigits cs
      (c :: r.1, r.2)
    else ([], c :: cs)

/-- Try to match the money pattern (a dollar sign, an optional whitespace
character, digits, an optional fractional part) at the head of the input,
returning the matched characters and the rest. -/
def matchMoneyAt : List Char → Option (List Char × List Char)
  | '$' :: rest =>
    let sp : List Char × List Char :=
      match rest with
      | c :: cs2 => if Base.isPyWs c then ([c], cs2) else ([], c :: cs2)
      | [] => ([], [])
    let ds := takeDigits sp.2
    if ds.1.isEmpty then none
    else
      match ds.2 with
      | '.' :: rest3 =>
        let fs := takeDigits rest3
        if fs.1.isEmpty then some ('$' :: sp.1 ++ ds.1, ds.2)
        else some ('$' :: sp.1 ++ ds.1 ++ '.' :: fs.1, fs.2)
      | _ => some ('$' :: sp.1 ++ ds.1, ds.2)
  | _ => none

/-- Left-to-right non-overlapping scan for money matches (the behaviour of
`re.findall`); the fuel argument bounds the recursion by the input length. -/
def findMoneyAux : Nat → List Char → List String
  | 0, _ => []
  | _, [] => []
  | fuel + 1, c :: cs =>
    match matchMoneyAt (c :: cs) with
    | some (m, rest) => String.mk m :: findMoneyAux fuel rest
    | none => findMoneyAux fuel cs

/-- All money matches in a string. -/
def findMoney (s : String) : List String := findMoneyAux s.data.length s.data

/-- Entity record produced per text by `NewsAdapter._extract`. -/
structure Entities where
  money : List String
deriving DecidableEq

/-- `NewsAdapter._extract`: money matches per text, deduplicated
(`list(set(...))` modelled as order-preserving deduplication). -/
def extractEntities (texts : List String) : List Entities :=
  texts.map (fun t => ⟨(findMoney t).dedup⟩)

/-- `NewsAdapter._get_stub_data`: two deterministic stub articles, one
engineered positive, one negative.  The two ISO timestamps (now and one hour
earlier) are passed in, since they come from the wall clock. -/
def get_stub_data (ticker : String) (nowIso hourAgoIso : String) : List Article :=
  [ { title := "[Stub] Growth story for " ++ ticker
      description := ticker ++ " gains as services growth improves"
      content := "..."
      publishedAt := nowIso },
    { title := "[Stub] Miss story for " ++ ticker
      description := ticker ++ " faces supply chain miss and margin pressure"
      content := "..."
      publishedAt := hourAgoIso } ]

/-- `NewsAdapter._ingest`: with no live session, or when the live call fails,
fall back to the two stub articles; otherwise return the fetched articles.
`session` is whether `self.session` is non-`None`; `live` is the article list
of the response, or the raised exception. -/
def ingest (session : Bool) (live : Except String (List Article))
    (ticker : String) (_window_days : Nat) (nowIso hourAgoIso : String) : List Article :=
  if session then
    match live with
    | Except.ok articles => articles
    | Except.error _ => get_stub_data ticker nowIso hourAgoIso
  else get_stub_data ticker nowIso hourAgoIso

/-- One per-article sample in the pipeline output. -/
structure Sample where
  text : String
  sentiment : String
  entities : Entities
deriving DecidableEq

/-- The aggregate returned by `NewsAdapter.run_chain`. -/
structure NewsResult where
  typ : String
  counts : List (String × Nat)
  samples : List Sample
  summary : Summary
  is_stub : Bool
deriving DecidableEq

/-- `NewsAdapter.run_chain`: ingest, preprocess, classify, extract, summarize,
then assemble the aggregate; `is_stub` is `self.session is None or
len(items) == 2`. -/
def run_chain (session : Bool) (live : Except String (List Article))
    (ticker : String) (window_days : Nat) (nowIso hourAgoIso : String) : NewsResult :=
  let items := ingest session live ticker window_days nowIso hourAgoIso
  let texts := preprocess items
  let labels := classify texts
  let extracts := extractEntities texts
  let summary := summarize labels texts 2
  { typ := "news"
    counts := summary.counts
    samples := (List.range (min 3 texts.length)).map
      (fun i => { text := texts.getD i ""
                  sentiment := labels.getD i ""
                  entities := extracts.getD i ⟨[]⟩ })
    summary := summary
    is_stub := (!session) || items.length == 2 }

end News

namespace Yahoo

/-- `YahooFinanceAdapter._sanitize_ticker`: strip surrounding whitespace,
drop a leading dollar sign, uppercase. -/
def sanitize_ticker (ticker : String) : String :=
  let t := ((ticker.data.dropWhile Base.isPyWs).reverse.dropWhile Base.isPyWs).reverse
  match t with
  | '$' :: rest => String.mk (rest.map Char.toUpper)
  | _ => String.mk (t.map Char.toUpper)

/-- One row of a price frame.  `none` models a missing value (`NaN`/`NaT`);
dates are day numbers, prices are exact rationals. -/
structure PriceRow where
  date : Option Int
  close : Option ℚ
  openPrice : Option ℚ
  high : Option ℚ
  low : Option ℚ
  volume : Option Int
deriving DecidableEq

/-- A price frame together with its `source` column value and the
`is_stub` / `stub_reason` attributes the adapter attaches to it. -/
structure PriceDf where
  rows : List PriceRow
  source : String
  is_stub : Bool
  stub_reason : Option String
deriving DecidableEq

/-- The ambient numeric environment of a single run: Python's string hash,
the seeded normal and integer draw streams of the process-global random
generator (a draw is a pure function of the seed and the draw index within
the run), and the exponential function. -/
structure StubEnv where
  pyHash : String → Int
  normalDraw : Nat → Nat → ℚ
  volumeDraw : Nat → Nat → Int
  expFn : ℚ → ℚ

/-- Running cumulative sums (`np.cumsum`). -/
def cumsumAux (acc : ℚ) : List ℚ → List ℚ
  | [] => []
  | x :: xs => (acc + x) :: cumsumAux (acc + x) xs

/-- Cumulative sums starting from zero. -/
def cumsum (l : List ℚ) : List ℚ := cumsumAux 0 l

/-- `YahooFinanceAdapter._get_stub_data`: a 30-day synthetic random walk.
The generator is seeded with `hash(ticker) % 2**32` and the base price is
`100 + hash(ticker) % 200`, so the series depends only on the ticker and the
run's numeric environment; the date index anchors at `today`. -/
def get_stub_data (env : StubEnv) (today : Int) (ticker : String)
    (error : Option String) : PriceDf :=
  let idx : List Int := (List.range 30).map (fun i => today - 29 + (i : Int))
  let seed : Nat := ((env.pyHash ticker) % ((2 : Int) ^ (32 : Nat))).toNat
  let base : ℚ := 100 + (((env.pyHash ticker) % 200 : Int) : ℚ)
  let draws : List ℚ := (List.range 30).map (fun i => env.normalDraw seed i)
  let prices : List ℚ := (cumsum draws).map (fun c => base * env.expFn c)
  let rows : List PriceRow := (List.range 30).map (fun i =>
    { date := some (idx.getD i 0)
      close := some (prices.getD i 0)
      openPrice := some (prices.getD i 0 * ((99 : ℚ) / 100))
      high := some (prices.getD i 0 * ((101 : ℚ) / 100))
      low := some (prices.getD i 0 * ((98 : ℚ) / 100))
      volume := some (env.volumeDraw seed i) })
  { rows := rows, source := "stub_fallback", is_stub := true, stub_reason := error }

/-- Insert a row into a date-sorted list of rows. -/
def insertByDate (r : PriceRow) : List PriceRow → List PriceRow
  | [] => [r]
  | s :: ss =>
    if (r.date.getD 0) ≤ (s.date.getD 0) then r :: s :: ss else s :: insertByDate r ss

/-- Sort rows by date (models `sort_values('Date')`). -/
def sortByDate : List PriceRow → List PriceRow
  | [] => []
  | r :: rs => insertByDate r (sortByDate rs)

/-- `YahooFinanceAdapter._normalize_dataframe`, row-level part: drop rows
with a null date, sort by date, drop rows with a null close.  (The column
renaming and multi-index flattening of the source act on column labels,
which the row model already holds in canonical form.) -/
def normalize_df (rows : List PriceRow) : List PriceRow :=
  (sortByDate (rows.filter (fun r => r.date.isSome))).filter (fun r => r.close.isSome)

/-- `YahooFinanceAdapter.fetch_prices`: stub-mode short circuit; live fetch
(`live` is the fetched frame or the raised exception); on an empty frame one
retry with a shorter period (`retry`); every failure falls back to the stub
generator with a reason; a surviving live frame is normalised and tagged
`source='yfinance'`, `is_stub=False`. -/
def fetch_prices (env : StubEnv) (today : Int) (stub : Bool)
    (live : Except String (List PriceRow)) (retry : Except String (List PriceRow))
    (ticker : String) : PriceDf :=
  let tk := sanitize_ticker ticker
  if stub then get_stub_data env today tk none
  else
    match live with
    | Except.error e => get_stub_data env today tk (some e)
    | Except.ok df =>
      if df.isEmpty then
        match retry with
        | Except.error _ => get_stub_data env today tk (some "Retry failed")
        | Except.ok df2 =>
          if df2.isEmpty then get_stub_data env today tk (some "Empty after retry")
          else { rows := normalize_df df2, source := "yfinance", is_stub := false, stub_reason := none }
      else { rows := normalize_df df, source := "yfinance", is_stub := false, stub_reason := none }

/-- Dictionary assignment `d[k] = v` on an insertion-ordered mapping. -/
def dictSet (d : List (String × String)) (k v : String) : List (String × String) :=
  if d.any (fun p => p.1 == k) then d.map (fun p => if p.1 == k then (k, v) else p)
  else d ++ [(k, v)]

/-- `YahooFinanceAdapter.fetch_info`: stub mode yields a stub-marker mapping;
a live failure yields an error-marker mapping; otherwise the fetched info
(empty info coerced to the empty mapping by `t.info or {}`) with a `source`
key added. -/
def fetch_info (stub : Bool) (live : Except String (List (String × String)))
    (ticker : String) : List (String × String) :=
  let tk := sanitize_ticker ticker
  if stub then [("stub", "True"), ("ticker", tk)]
  else
    match live with
    | Except.error e => [("error", e), ("ticker", tk)]
    | Except.ok info => dictSet info "source" "info"

/-- A financial-statement table: row label and per-period values. -/
abbrev FinTable := List (String × List ℚ)

/-- `YahooFinanceAdapter.fetch_financials`: empty table in stub mode, on a
live failure, or on empty live data; otherwise the fetched table. -/
def fetch_financials (stub : Bool) (live : Except String FinTable)
    (_ticker : String) : FinTable :=
  if stub then []
  else
    match live with
    | Except.error _ => []
    | Except.ok fin => if fin.isEmpty then [] else fin

/-- `YahooFinanceAdapter.fetch_balance_sheet`: same shape as
`fetch_financials` over the balance-sheet property. -/
def fetch_balance_sheet (stub : Bool) (live : Except String FinTable)
    (_ticker : String) : FinTable :=
  if stub then []
  else
    match live with
    | Except.error _ => []
    | Except.ok bs => if bs.isEmpty then [] else bs

/-- `YahooFinanceAdapter.fetch_cashflow`: same shape as `fetch_financials`
over the cash-flow property. -/
def fetch_cashflow (stub : Bool) (live : Except String FinTable)
    (_ticker : String) : FinTable :=
  if stub then []
  else
    match live with
    | Except.error _ => []
    | Except.ok cf => if cf.isEmpty then [] else cf

end Yahoo

namespace SEC

/-- A normalised filing record as returned by `SECAdapter.latest_filings`. -/
structure Filing where
  form : String
  filingDate : String
  text : String
  url : String
  is_stub : Bool
deriving DecidableEq

/-- `SECAdapter._get_stub_data`: `limit` copies of a synthetic filing with
`is_stub` true. -/
def get_stub_data (ticker : String) (limit : Nat) : List Filing :=
  (List.range limit).map (fun _ =>
    { form := "10-Q"
      filingDate := "2025-08-01"
      text := ticker ++ " reported EPS beat; management raised guidance; risk factors discussed."
      url := "(stub)"
      is_stub := true })

/-- A raw filing object of the live API response (`f.get(...)` fields). -/
structure RawFiling where
  formType : Option String
  filedAt : Option String
  companyName : Option String
  linkToFilingDetails : Option String
deriving DecidableEq

/-- The boolean-OR form-type query built by `latest_filings`. -/
def form_query (form_types : List String) : String :=
  String.intercalate " OR " (form_types.map (fun ft => "formType:\"" ++ ft ++ "\""))

/-- `SECAdapter.latest_filings`: with a falsy API key, or on any live
failure, `limit` stub records; otherwise each raw filing mapped to the
normalised shape (date truncated to 10 characters, synthesised description,
`is_stub` false). -/
def latest_filings (api_key : Option String) (live : Except String (List RawFiling))
    (ticker : String) (_form_types : List String) (limit : Nat) : List Filing :=
  if Base.pyTruthy api_key then
    match live with
    | Except.error _ => get_stub_data ticker limit
    | Except.ok raws => raws.map (fun f =>
        { form := f.formType.getD ""
          filingDate := (f.filedAt.getD "").take 10
          text := (f.companyName.getD ticker) ++ " filed " ++ f.formType.getD "" ++ "."
          url := f.linkToFilingDetails.getD ""
          is_stub := false })
  else get_stub_data ticker limit

end SEC

namespace Base

/-- The mutable attributes of `baseDataAdapter` relevant to state evolution:
the `_stub` flag, the health fields, and the construction timestamp. -/
structure AdapterState where
  stub : Bool
  health_check_passed : Bool
  health_check_message : String
  init_time : String
deriving DecidableEq

/-- `baseDataAdapter.__init__` before any optional health check:
`_stub = False`, health untested. -/
def init_state (t : String) : AdapterState :=
  { stub := false
    health_check_passed := false
    health_check_message := "Not Tested"
    init_time := t }

/-- The operations a caller can run on an adapter instance.  A health check
carries its environment (credential and live-call outcomes); every fetch
method only reads adapter state, so all fetches collapse to one opaque-input
operation. -/
inductive AdapterOp
  | healthCheck (envVar opMsg : String) (key : Option String)
      (conn : Except String Unit) (parse : Except String Bool)
  | fetchOp

/-- State transition of one operation: a health check writes the two health
fields from `run_health_check`; a fetch call writes nothing. -/
def apply_op (s : AdapterState) : AdapterOp → AdapterState
  | AdapterOp.healthCheck envVar opMsg key conn parse =>
    let r := run_health_check envVar opMsg key conn parse
    { s with health_check_passed := r.1.health_check_passed
             health_check_message := r.1.health_check_message }
  | AdapterOp.fetchOp => s

/-- The state after constructing an adapter at time `t` and running a
sequence of operations. -/
def run_ops (t : String) (ops : List AdapterOp) : AdapterState :=
  ops.foldl apply_op (init_state t)

/-- The record returned by `baseDataAdapter.get_health_status`. -/
structure HealthStatus where
  healthy : Bool
  message : String
  init_time : String
  stub_mode : Bool
deriving DecidableEq

/-- `baseDataAdapter.get_health_status`. -/
def get_health_status (s : AdapterState) : HealthStatus :=
  { healthy := s.health_check_passed
    message := s.health_check_message
    init_time := s.init_time
    stub_mode := s.stub }

end Base

/-- A concrete numeric environment used to evaluate the embedding on
explicit inputs: constant hash, zero normal draws, unit volume draws,
constant-one exponential. -/
def env0 : Yahoo.StubEnv :=
  { pyHash := fun _ => 7
    normalDraw := fun _ _ => 0
    volumeDraw := fun _ _ => 1
    expFn := fun _ => 1 }

/-- A positive cue word occurs in the text as a substring. -/
def PosPresent (t : String) : Prop := ∃ k ∈ News.POS, k.data <:+: t.data

/-- A negative cue word occurs in the text as a substring. -/
def NegPresent (t : String) : Prop := ∃ k ∈ News.NEG, k.data <:+: t.data

theorem any_strContains_iff (ks : List String) (t : String) :
    ks.any (fun k => News.strContains t k) = true ↔ ∃ k ∈ ks, k.data <:+: t.data := by
  simp [News.strContains, List.any_eq_true]

theorem classify_text_mem_four (t : String) :
    News.classify_text t = "mixed" ∨ News.classify_text t = "positive" ∨
    News.classify_text t = "negative" ∨ News.classify_text t = "neutral" := by
  unfold News.classify_text
  by_cases h1 : News.POS.any (fun k => News.strContains t k) = true <;>
    by_cases h2 : News.NEG.any (fun k => News.strContains t k) = true <;>
      simp [h1, h2]

theorem count_four_sum (labels : List String)
    (h : ∀ l ∈ labels, l = "mixed" ∨ l = "positive" ∨ l = "negative" ∨ l = "neutral") :
    labels.count "mixed" + labels.count "positive" + labels.count "negative" +
      labels.count "neutral" = labels.length := by
  induction labels with
  | nil => rfl
  | cons x xs ih =>
    have hx := h x (List.mem_cons_self x xs)
    have ih2 := ih (fun l hl => h l (List.mem_cons_of_mem x hl))
    rcases hx with rfl | rfl | rfl | rfl <;> simp [List.count_cons] <;> omega

theorem fetch_prices_shape (env : Yahoo.StubEnv) (today : Int) (stub : Bool)
    (live retry : Except String (List Yahoo.PriceRow)) (ticker : String) :
    (∃ e, Yahoo.fetch_prices env today stub live retry ticker =
        Yahoo.get_stub_data env today (Yahoo.sanitize_ticker ticker) e) ∨
    (∃ df, Yahoo.fetch_prices env today stub live retry ticker =
        { rows := Yahoo.normalize_df df, source := "yfinance", is_stub := false,
          stub_reason := none }) := by
  unfold Yahoo.fetch_prices
  dsimp only []
  split
  · exact Or.inl ⟨none, rfl⟩
  · split
    · exact Or.inl ⟨_, rfl⟩
    · split
      · split
        · exact Or.inl ⟨_, rfl⟩
        · split
          · exact Or.inl ⟨_, rfl⟩
          · exact Or.inr ⟨_, rfl⟩
      · exact Or.inr ⟨_, rfl⟩

theorem fetch_prices_false_shape (env : Yahoo.StubEnv) (today : Int)
    (live retry : Except String (List Yahoo.PriceRow)) (ticker : String) :
    (∃ e, Yahoo.fetch_prices env today false live retry ticker =
        Yahoo.get_stub_data env today (Yahoo.sanitize_ticker ticker) (some e)) ∨
    (∃ df, Yahoo.fetch_prices env today false live retry ticker =
        { rows := Yahoo.normalize_df df, source := "yfinance", is_stub := false,
          stub_reason := none }) := by
  unfold Yahoo.fetch_prices
  dsimp only []
  rw [if_neg Bool.false_ne_true]
  split
  · exact Or.inl ⟨_, rfl⟩
  · split
    · split
      · exact Or.inl ⟨_, rfl⟩
      · split
        · exact Or.inl ⟨_, rfl⟩
        · exact Or.inr ⟨_, rfl⟩
    · exact Or.inr ⟨_, rfl⟩

theorem get_stub_data_rows_length (env : Yahoo.StubEnv) (today : Int)
    (ticker : String) (e : Option String) :
    (Yahoo.get_stub_data env today ticker e).rows.length = 30 := by
  simp [Yahoo.get_stub_data]


/-- C1: no fetch operation raises for source unavailability: for every input,
when the live call raises (`Except.error`) or yields an empty/unavailable
result — and for the news adapter also when no live session exists, and for
the SEC adapter when the credential is absent — `fetch_prices`, `_ingest`
(the fetch stage of `run_chain`) and `latest_filings` return the adapter's
normally-typed stub result instead of propagating the exception. -/
theorem fetch_unavailability_returns_stub (env : Yahoo.StubEnv) (today : Int)
    (e e2 eN eS : String) (retry : Except String (List Yahoo.PriceRow))
    (ticker : String) (liveN : Except String (List News.Article))
    (tk : String) (wd : Nat) (nowIso hourAgoIso : String)
    (liveS : Except String (List SEC.RawFiling)) (key : Option String)
    (fts : List String) (lim : Nat) :
    (Yahoo.fetch_prices env today false (Except.error e) retry ticker =
      Yahoo.get_stub_data env today (Yahoo.sanitize_ticker ticker) (some e)) ∧
    (Yahoo.fetch_prices env today false (Except.ok []) (Except.error e2) ticker =
      Yahoo.get_stub_data env today (Yahoo.sanitize_ticker ticker) (some "Retry failed")) ∧
    (Yahoo.fetch_prices env today false (Except.ok []) (Except.ok []) ticker =
      Yahoo.get_stub_data env today (Yahoo.sanitize_ticker ticker) (some "Empty after retry")) ∧
    (News.ingest false liveN tk wd nowIso hourAgoIso = News.get_stub_data tk nowIso hourAgoIso) ∧
    (News.ingest true (Except.error eN) tk wd nowIso hourAgoIso =
      News.get_stub_data tk nowIso hourAgoIso) ∧
    (SEC.latest_filings none liveS tk fts lim = SEC.get_stub_data tk lim) ∧
    (SEC.latest_filings key (Except.error eS) tk fts lim = SEC.get_stub_data tk lim) := by
  refine ⟨rfl, rfl, rfl, rfl, rfl, rfl, ?_⟩
  cases key with
  | none => rfl
  | some k =>
    by_cases hk : k.isEmpty <;> simp [SEC.latest_filings, Base.pyTruthy, hk]

/-- C2: classification is a total deterministic function of the text: the
label is `mixed` exactly when a positive and a negative cue are both present
as substrings, `positive` when only positive cues are present, `negative`
when only negative cues are present, and `neutral` otherwise — independent of
cue order or repetition, since only presence matters. -/
theorem classify_text_total_spec (t : String) :
    (News.classify_text t = "mixed" ↔ PosPresent t ∧ NegPresent t) ∧
    (News.classify_text t = "positive" ↔ PosPresent t ∧ ¬ NegPresent t) ∧
    (News.classify_text t = "negative" ↔ ¬ PosPresent t ∧ NegPresent t) ∧
    (News.classify_text t = "neutral" ↔ ¬ PosPresent t ∧ ¬ NegPresent t) := by
  have hp := any_strContains_iff News.POS t
  have hn := any_strContains_iff News.NEG t
  unfold News.classify_text
  cases hb1 : News.POS.any (fun k => News.strContains t k) <;>
    cases hb2 : News.NEG.any (fun k => News.strContains t k) <;>
      rw [hb1] at hp <;> rw [hb2] at hn <;>
        simp only [Bool.false_eq_true, false_iff, Bool.true_eq, true_iff] at hp hn <;>
          simp [PosPresent, NegPresent, hp, hn]

/-- C3 counterexample: the claim "fetch_prices returns a non-empty result ...
on both the live path and every fallback path" fails on the live path: a live
frame whose single row has a valid date but a null close survives the
emptiness check, is normalised (the null-close row is dropped), and the
adapter returns an empty frame tagged `source='yfinance'`. -/
theorem fetch_prices_live_empty_counterexample :
    (Yahoo.fetch_prices env0 0 false
        (Except.ok [{ date := some 0, close := none, openPrice := none, high := none,
                      low := none, volume := none }])
        (Except.ok []) "AAPL").rows = [] ∧
    (Yahoo.fetch_prices env0 0 false
        (Except.ok [{ date := some 0, close := none, openPrice := none, high := none,
                      low := none, volume := none }])
        (Except.ok []) "AAPL").source = "yfinance" := by
  exact ⟨rfl, rfl⟩

/-- C3 (amended): for every ticker and every outcome of the live and retry
calls, the `fetch_prices` result is tagged with exactly the live marker
`yfinance` or the stub marker `stub_fallback` (never neither, and the
`is_stub` flag agrees with the tag); every stub result has exactly 30 rows,
so only the live path can produce an empty result (when no fetched row
survives normalisation). -/
theorem fetch_prices_source_amended (env : Yahoo.StubEnv) (today : Int) (stub : Bool)
    (live retry : Except String (List Yahoo.PriceRow)) (ticker : String) :
    ((Yahoo.fetch_prices env today stub live retry ticker).source = "yfinance" ∨
      (Yahoo.fetch_prices env today stub live retry ticker).source = "stub_fallback") ∧
    ((Yahoo.fetch_prices env today stub live retry ticker).is_stub =
      ((Yahoo.fetch_prices env today stub live retry ticker).source == "stub_fallback")) ∧
    ((Yahoo.fetch_prices env today stub live retry ticker).rows.length = 30 ∨
      (Yahoo.fetch_prices env today stub live retry ticker).source = "yfinance") := by
  rcases fetch_prices_shape env today stub live retry ticker with ⟨e, he⟩ | ⟨df, hdf⟩
  · rw [he]
    exact ⟨Or.inr rfl, rfl, Or.inl (get_stub_data_rows_length env today _ e)⟩
  · rw [hdf]
    exact ⟨Or.inl rfl, rfl, Or.inr rfl⟩

/-- C4: for every list of input texts, the counts mapping produced by
`_summarize` from the labels `_classify` assigns contains all four keys
`mixed`, `positive`, `negative`, `neutral` (zero for absent labels), and the
four counts sum to the number of input texts. -/
theorem summarize_counts_spec (texts : List String) :
    ((News.summarize (News.classify texts) texts 2).counts.map Prod.fst =
      ["mixed", "positive", "negative", "neutral"]) ∧
    (((News.summarize (News.classify texts) texts 2).counts.map Prod.snd).sum =
      texts.length) := by
  constructor
  · rfl
  · have h : ∀ l ∈ News.classify texts,
        l = "mixed" ∨ l = "positive" ∨ l = "negative" ∨ l = "neutral" := by
      intro l hl
      simp only [News.classify, List.mem_map] at hl
      obtain ⟨t, _, rfl⟩ := hl
      exact classify_text_mem_four t
    have hs := count_four_sum (News.classify texts) h
    have hlen : (News.classify texts).length = texts.length := by
      simp [News.classify]
    simp only [News.summarize, List.map_cons, List.map_nil, List.sum_cons, List.sum_nil]
    omega

/-- C5: with an absent API key, `latest_filings` returns exactly `limit`
records, all flagged as stubs, for every ticker, form-type set and limit. -/
theorem latest_filings_missing_key_stub (live : Except String (List SEC.RawFiling))
    (ticker : String) (form_types : List String) (limit : Nat) :
    (SEC.latest_filings none live ticker form_types limit).length = limit ∧
    (SEC.latest_filings none live ticker form_types limit).all
      (fun f => f.is_stub) = true := by
  constructor
  · simp [SEC.latest_filings, Base.pyTruthy, SEC.get_stub_data]
  · simp [SEC.latest_filings, Base.pyTruthy, SEC.get_stub_data, List.all_eq_true]

/-- C6: `run_chain` flags its result as stub exactly when no live session
exists or the ingested article list has exactly 2 elements; in particular a
genuine live response of exactly two articles is flagged as stub. -/
theorem run_chain_is_stub_spec (session : Bool)
    (live : Except String (List News.Article)) (ticker : String) (wd : Nat)
    (nowIso hourAgoIso : String) (a1 a2 : News.Article) :
    ((News.run_chain session live ticker wd nowIso hourAgoIso).is_stub = true ↔
      (session = false ∨
        (News.ingest session live ticker wd nowIso hourAgoIso).length = 2)) ∧
    (News.run_chain true (Except.ok [a1, a2]) ticker wd nowIso hourAgoIso).is_stub = true := by
  constructor
  · simp [News.run_chain, Bool.or_eq_true, Bool.not_eq_true']
  · simp [News.run_chain, News.ingest]

/-- C7: for every API-backed adapter (parameterised by its credential
environment variable and success message), a health check with an absent
credential reports `healthy=false` with a message naming the missing
environment variable, runs only the credential step — in particular no
network I/O, which happens only in the connection step — and for every
adapter the response-shape step never runs when the connection step fails
(each step short-circuits on failure). -/
theorem health_check_missing_credential_spec (envVar opMsg : String)
    (key : Option String) (conn : Except String Unit) (parse : Except String Bool)
    (e : String) :
    (Base.run_health_check envVar opMsg none conn parse).1.health_check_passed = false ∧
    (Base.run_health_check envVar opMsg none conn parse).1.health_check_message =
      "No " ++ envVar ++ " found in environment" ∧
    (Base.run_health_check envVar opMsg none conn parse).2 = [Base.Step.credential] ∧
    (Base.run_health_check envVar opMsg none conn parse).2.contains
      Base.Step.connection = false ∧
    (Base.run_health_check envVar opMsg key (Except.error e) parse).2.contains
      Base.Step.responseShape = false := by
  refine ⟨rfl, rfl, rfl, rfl, ?_⟩
  cases key with
  | none => rfl
  | some k =>
    by_cases hk : k.isEmpty <;>
      simp [Base.run_health_check, Base.pyTruthy, hk, Base.test_api_connection] <;>
        decide

/-- C8: stub price generation is deterministic per ticker identity within a
run: with the same numeric environment (hash and seeded generator of the
run), two `_get_stub_data` calls for the same ticker — at different wall
clock anchors and with different failure reasons — produce identical Close,
Open, High, Low and Volume series. -/
theorem stub_prices_deterministic (env : Yahoo.StubEnv) (t1 t2 : Int)
    (ticker : String) (e1 e2 : Option String) :
    ((Yahoo.get_stub_data env t1 ticker e1).rows.map Yahoo.PriceRow.close =
      (Yahoo.get_stub_data env t2 ticker e2).rows.map Yahoo.PriceRow.close) ∧
    ((Yahoo.get_stub_data env t1 ticker e1).rows.map Yahoo.PriceRow.openPrice =
      (Yahoo.get_stub_data env t2 ticker e2).rows.map Yahoo.PriceRow.openPrice) ∧
    ((Yahoo.get_stub_data env t1 ticker e1).rows.map Yahoo.PriceRow.high =
      (Yahoo.get_stub_data env t2 ticker e2).rows.map Yahoo.PriceRow.high) ∧
    ((Yahoo.get_stub_data env t1 ticker e1).rows.map Yahoo.PriceRow.low =
      (Yahoo.get_stub_data env t2 ticker e2).rows.map Yahoo.PriceRow.low) ∧
    ((Yahoo.get_stub_data env t1 ticker e1).rows.map Yahoo.PriceRow.volume =
      (Yahoo.get_stub_data env t2 ticker e2).rows.map Yahoo.PriceRow.volume) := by
  refine ⟨?_, ?_, ?_, ?_, ?_⟩ <;> simp [Yahoo.get_stub_data, List.map_map, Function.comp]

/-- C9 counterexample: the claim that each of `fetch_info`, `fetch_financials`,
`fetch_balance_sheet` and `fetch_cashflow` "returns an explicitly empty
result (empty mapping or empty table)" fails for `fetch_info`: in stub mode
it returns a two-key mapping (`stub` and `ticker` markers), not an empty
mapping. -/
theorem fetch_info_stub_mode_nonempty :
    Yahoo.fetch_info true (Except.ok []) "AAPL" =
      [("stub", "True"), ("ticker", "AAPL")] ∧
    Yahoo.fetch_info true (Except.ok []) "AAPL" ≠ [] := by
  constructor
  · rfl
  · decide

/-- C9 (amended): `fetch_financials`, `fetch_balance_sheet` and
`fetch_cashflow` each return an explicitly empty table in stub mode, on a
live failure, and on empty live data; `fetch_info` instead returns a small
status-only mapping — a stub marker with the ticker in stub mode, an error
marker with the ticker on a live failure, and just the `source` key on empty
live info.  None of the four ever fabricates synthetic financial values. -/
theorem empty_fundamentals_amended (stub : Bool) (e : String) (ticker : String)
    (liveI : Except String (List (String × String)))
    (liveF : Except String Yahoo.FinTable) :
    (Yahoo.fetch_financials true liveF ticker = []) ∧
    (Yahoo.fetch_financials stub (Except.error e) ticker = []) ∧
    (Yahoo.fetch_financials stub (Except.ok []) ticker = []) ∧
    (Yahoo.fetch_balance_sheet true liveF ticker = []) ∧
    (Yahoo.fetch_balance_sheet stub (Except.error e) ticker = []) ∧
    (Yahoo.fetch_balance_sheet stub (Except.ok []) ticker = []) ∧
    (Yahoo.fetch_cashflow true liveF ticker = []) ∧
    (Yahoo.fetch_cashflow stub (Except.error e) ticker = []) ∧
    (Yahoo.fetch_cashflow stub (Except.ok []) ticker = []) ∧
    (Yahoo.fetch_info true liveI ticker =
      [("stub", "True"), ("ticker", Yahoo.sanitize_ticker ticker)]) ∧
    (Yahoo.fetch_info false (Except.error e) ticker =
      [("error", e), ("ticker", Yahoo.sanitize_ticker ticker)]) ∧
    (Yahoo.fetch_info false (Except.ok []) ticker = [("source", "info")]) := by
  cases stub <;>
    exact ⟨rfl, rfl, rfl, rfl, rfl, rfl, rfl, rfl, rfl, rfl, rfl, rfl⟩

/-- C10: the `_stub` flag is initialised to `False` and no operation ever
writes it, so after any sequence of health checks and fetch calls it is still
`False`, `get_health_status` reports `stub_mode=False`, and the stub-mode
branches guarded by `self._stub` are unreachable — observably, under the
adapter's own stub flag every stub fallback of `fetch_prices` carries a
recorded reason, which the stub-mode branch would not. -/
theorem stub_flag_invariant (t0 : String) (ops : List Base.AdapterOp)
    (env : Yahoo.StubEnv) (today : Int)
    (live retry : Except String (List Yahoo.PriceRow)) (ticker : String) :
    (Base.run_ops t0 ops).stub = false ∧
    (Base.get_health_status (Base.run_ops t0 ops)).stub_mode = false ∧
    ((Yahoo.fetch_prices env today (Base.run_ops t0 ops).stub live retry
        ticker).stub_reason.isSome =
      (Yahoo.fetch_prices env today (Base.run_ops t0 ops).stub live retry
        ticker).is_stub) := by
  have hstub : ∀ (s : Base.AdapterState) (l : List Base.AdapterOp),
      (l.foldl Base.apply_op s).stub = s.stub := by
    intro s l
    induction l generalizing s with
    | nil => rfl
    | cons op rest ih =>
      cases op with
      | healthCheck v m k c p => simpa [Base.apply_op] using ih _
      | fetchOp => simpa [Base.apply_op] using ih _
  have h1 : (Base.run_ops t0 ops).stub = false := hstub _ _
  refine ⟨h1, h1, ?_⟩
  rw [h1]
  rcases fetch_prices_false_shape env today live retry ticker with ⟨e, he⟩ | ⟨df, hdf⟩
  · rw [he]; rfl
  · rw [hdf]; rfl
